import Mathlib

/-!
Verification development for the chaos scenario execution engine
(`tools/chaos/chaos_runner.py`): scenario/step/SLO data model, step
executor, SLO evaluator, run recorder lifecycle, and replay rendering.

Modelling conventions:
* Python dicts that hold JSON-like data are insertion-ordered association
  lists `List (String × Json)`; `Dict.set` mirrors `d[k] = v` (update in
  place if the key exists, append otherwise) and `Dict.getD` mirrors
  `d.get(k)` with `Json.null` standing for Python `None`.
* Numeric metric values and thresholds (Python floats) are modelled as
  rationals `Rat`; the properties at issue are order comparisons, which
  the rational model reflects exactly.
* Raised Python exceptions are `Except String` errors carrying `str(exc)`.
* External effects (child processes, metric HTTP queries, the artifact
  file) are explicit: the executor returns the list of effects it
  performed, and the recorder state carries the persisted artifact as an
  `Option Payload` (none = no file written yet).
-/

/-- JSON-like values as stored in scenario definitions and run records. -/
inductive Json where
  | null : Json
  | bool (b : Bool) : Json
  | num (q : Rat) : Json
  | str (s : String) : Json
  | arr (xs : List Json) : Json
  | obj (fields : List (String × Json)) : Json
deriving Repr

/-- Insertion-ordered dictionary with string keys, the shape of Python
dicts used for step details and reports. -/
abbrev Dict := List (String × Json)

/-- Assignment `d[k] = v` on a Python dict: update the existing entry in place if the
key is present, otherwise append a new entry at the end. -/
def Dict.set : Dict → String → Json → Dict
  | [], k, v => [(k, v)]
  | kv :: rest, k, v =>
    if kv.1 == k then (k, v) :: rest else kv :: Dict.set rest k v

/-- Lookup `d.get(k)` on a Python dict: the stored value, or `Json.null` (Python
`None`) when the key is absent. -/
def Dict.getD (d : Dict) (k : String) : Json :=
  match d.find? (fun kv => kv.1 == k) with
  | some kv => kv.2
  | none => Json.null

/-- Merge `{**a, **b}`: entries of `a` in order, overridden by `b`, with the new
keys of `b` appended in their order. -/
def Dict.merge (a b : Dict) : Dict :=
  b.foldl (fun acc kv => acc.set kv.1 kv.2) a

/-- Python truthiness of a JSON value (`if raw_step["expected_slo"]:`). -/
def Json.truthy : Json → Bool
  | .null => false
  | .bool b => b
  | .num q => q != 0
  | .str s => s != ""
  | .arr xs => !xs.isEmpty
  | .obj fs => !fs.isEmpty

/-- Dictionary subscript `v[k]` on a JSON value: `KeyError` when the key is
missing, `TypeError` when the value is not an object. -/
def Json.index (v : Json) (k : String) : Except String Json :=
  match v with
  | .obj fs =>
    match fs.find? (fun kv => kv.1 == k) with
    | some kv => Except.ok kv.2
    | none => Except.error ("KeyError: " ++ k)
  | _ => Except.error "TypeError: 不可下标访问"

/-- Extract a string field (scenario definitions provide strings here). -/
def Json.asStr : Json → Except String String
  | .str s => Except.ok s
  | _ => Except.error "TypeError: 期望字符串"

/-- Conversion `float(x)` on a JSON value: numbers pass through, booleans coerce to
0/1, anything else raises. (Numeric-string coercion is not modelled; no
scenario in scope stores thresholds as strings.) -/
def Json.toFloat : Json → Except String Rat
  | .num q => Except.ok q
  | .bool b => Except.ok (if b then 1 else 0)
  | _ => Except.error "TypeError: float() 参数类型不支持"

/-- The `SLOExpectation` dataclass: name, comparison direction, threshold. -/
structure SLOExpectation where
  name : String
  comparison : String
  threshold : Rat
deriving Repr, DecidableEq

/-- Constructing an `SLOExpectation` runs `__post_init__`, which raises
`ValueError` unless the comparison is `<=` or `>=`. -/
def SLOExpectation.make (name comparison : String) (threshold : Rat) :
    Except String SLOExpectation :=
  if comparison = "<=" ∨ comparison = ">=" then
    Except.ok ⟨name, comparison, threshold⟩
  else
    Except.error ("不支持的 comparison: " ++ comparison)

/-- The `ChaosStep` dataclass. -/
structure ChaosStep where
  id : String
  action : String
  command : Option String := none
  query : Option String := none
  rollback : Option String := none
  expected_slo : Option SLOExpectation := none
  observation : Option String := none
deriving Repr, DecidableEq

/-- The `ChaosScenario` dataclass. -/
structure ChaosScenario where
  id : String
  title : String
  description : String
  impact : String
  steady_state_check : Dict
  steps : List ChaosStep
deriving Repr

/-- One raw step dictionary inside a scenario definition, before
construction: optional keys are `none` when absent, and `expected_slo`
holds the raw JSON value when the key is present. -/
structure RawStep where
  id : String
  action : String
  command : Option String := none
  query : Option String := none
  rollback : Option String := none
  expected_slo : Option Json := none
  observation : Option String := none
deriving Repr

/-- The raw scenario definition dictionary handed to `from_dict`. -/
structure RawScenario where
  id : String
  title : String
  description : String
  impact : String
  steady_state_check : Dict := []
  steps : List RawStep
deriving Repr

/-- Loop body of `ChaosScenario.from_dict` for one raw step: build the
optional `SLOExpectation` (only when the `expected_slo` key is present
*and* truthy), then the `ChaosStep`. -/
def parseStep (raw : RawStep) : Except String ChaosStep := do
  let slo : Option SLOExpectation ←
    match raw.expected_slo with
    | some v =>
      if v.truthy then do
        let nameJ ← v.index "name"
        let name ← nameJ.asStr
        let cmpJ ← v.index "comparison"
        let cmp ← cmpJ.asStr
        let thrJ ← v.index "threshold"
        let thr ← thrJ.toFloat
        let e ← SLOExpectation.make name cmp thr
        pure (some e)
      else
        pure none
    | none => pure none
  pure
    { id := raw.id
      action := raw.action
      command := raw.command
      query := raw.query
      rollback := raw.rollback
      expected_slo := slo
      observation := raw.observation }

/-- Constructor `ChaosScenario.from_dict`: parse every raw step (propagating any
validation error), then reject scenarios with zero steps. -/
def ChaosScenario.from_dict (data : RawScenario) : Except String ChaosScenario := do
  let steps ← data.steps.mapM parseStep
  if steps.isEmpty then
    Except.error ("场景 " ++ data.id ++ " 未定义任何步骤")
  else
    pure
      { id := data.id
        title := data.title
        description := data.description
        impact := data.impact
        steady_state_check := data.steady_state_check
        steps := steps }

/-- Observable external effects of step execution. -/
inductive Effect where
  | spawn (command : String) : Effect
  | metricQuery (query : String) : Effect
deriving Repr, DecidableEq

/-- Captured stdout/stderr of a completed child process (`check=True`
succeeded, so the exit code was zero). -/
structure ShellResult where
  stdout : String
  stderr : String
deriving Repr, DecidableEq

/-- The external world the runner interacts with: the configured metrics
endpoint, the child-process oracle (`subprocess.run` with `check=True`:
an error models `CalledProcessError` on non-zero exit), and the metric
HTTP oracle (an error models a network or parse failure). -/
structure World where
  metricsEndpoint : Option String
  shell : String → Except String ShellResult
  fetch : String → Except String (Option Rat)

/-- Python `None` / value for an optional string field. -/
def jsonOfOptStr : Option String → Json
  | none => Json.null
  | some s => Json.str s

/-- Python `None` / value for an optional metric reading. -/
def jsonOfOptRat : Option Rat → Json
  | none => Json.null
  | some q => Json.num q

/-- Python falsiness of an optional string (`if not step.command`). -/
def optStrFalsy : Option String → Bool
  | none => true
  | some s => s == ""

/-- Query `MetricClient.fetch_value`: with no endpoint configured, return `None`
without touching the network; otherwise issue the HTTP query. -/
def fetchValue (w : World) (query : String) :
    List Effect × Except String (Option Rat) :=
  match w.metricsEndpoint with
  | none => ([], Except.ok none)
  | some _ => ([Effect.metricQuery query], w.fetch query)

/-- Executor `ChaosRunner._execute_step`: dispatch on the action type, returning
the effects performed and either the result detail dict or the raised
exception's description. -/
def executeStep (w : World) (step : ChaosStep) (dryRun : Bool) :
    List Effect × Except String Dict :=
  let detail : Dict :=
    [("status", Json.str "success"), ("observation", jsonOfOptStr step.observation)]
  if step.action = "shell" then
    if optStrFalsy step.command then
      ([], Except.error ("步骤 " ++ step.id ++ " 缺少 command"))
    else
      let c := step.command.getD ""
      let detail := detail.set "command" (Json.str c)
      if dryRun then
        ([], Except.ok ((detail.set "status" (Json.str "skipped")).set "output"
          (Json.str "dry-run 未执行")))
      else
        match w.shell c with
        | Except.ok r =>
          ([Effect.spawn c], Except.ok ((detail.set "stdout" (Json.str r.stdout)).set
            "stderr" (Json.str r.stderr)))
        | Except.error e => ([Effect.spawn c], Except.error e)
  else if step.action = "check-metric" then
    if optStrFalsy step.query then
      ([], Except.error ("步骤 " ++ step.id ++ " 缺少 query"))
    else
      let q := step.query.getD ""
      let (effs, res) := fetchValue w q
      match res with
      | Except.error e => (effs, Except.error e)
      | Except.ok value =>
        let detail := (detail.set "metric_query" (Json.str q)).set "metric_value"
          (jsonOfOptRat value)
        let detail :=
          match value with
          | none => detail.set "status" (Json.str "skipped")
          | some _ => detail
        (effs, Except.ok detail)
  else
    ([], Except.error ("未知的步骤类型: " ++ step.action))

/-- Outcome of `ChaosRunner._assert_slo`: either the report dict is
returned normally, or an exception is raised while the local report dict
holds the given contents at the raise site. -/
inductive SloOutcome where
  | ok (report : Dict) : SloOutcome
  | fail (report : Dict) (err : String) : SloOutcome
deriving Repr

/-- The report dict `_assert_slo` builds before inspecting the metric
value. -/
def sloReportBase (slo : SLOExpectation) : Dict :=
  [("slo_name", Json.str slo.name),
   ("slo_threshold", Json.num slo.threshold),
   ("slo_comparison", Json.str slo.comparison)]

/-- The `AssertionError` message of an SLO violation. -/
def sloViolationMsg (step : ChaosStep) (slo : SLOExpectation) (v : Rat) : String :=
  "步骤 " ++ step.id ++ " 的指标 " ++ slo.name ++ " = " ++ toString v ++
    " 未满足 " ++ slo.comparison ++ " " ++ toString slo.threshold

/-- The report returned on a passed comparison. -/
def sloReportMet (slo : SLOExpectation) (v : Rat) : Dict :=
  ((sloReportBase slo).set "slo_value" (Json.num v)).set "slo_status" (Json.str "met")

/-- The report held at the raise site of a failed comparison. -/
def sloReportViolated (slo : SLOExpectation) (v : Rat) : Dict :=
  ((sloReportBase slo).set "slo_value" (Json.num v)).set "slo_status"
    (Json.str "violated")

/-- Evaluator `ChaosRunner._assert_slo`: no expectation → empty report; no metric
value (`None`) → `pending`; otherwise compare against the threshold,
returning `met` or raising `AssertionError` with the report left at
`violated`. -/
def assertSlo (step : ChaosStep) (result : Dict) : SloOutcome :=
  match step.expected_slo with
  | none => SloOutcome.ok []
  | some slo =>
    match result.getD "metric_value" with
    | Json.null => SloOutcome.ok ((sloReportBase slo).set "slo_status" (Json.str "pending"))
    | Json.num v =>
      let passed : Bool :=
        if slo.comparison = "<=" then decide (v ≤ slo.threshold)
        else decide (v ≥ slo.threshold)
      if passed then
        SloOutcome.ok (sloReportMet slo v)
      else
        SloOutcome.fail (sloReportViolated slo v) (sloViolationMsg step slo v)
    | _ => SloOutcome.fail (sloReportBase slo) "TypeError: 比较不支持的类型"

/-- One entry of the persisted `steps` list. -/
structure StepEntry where
  step_id : String
  action : String
  status : String
  detail : Dict
deriving Repr

/-- The in-memory run record (`self.payload`); `failed` is `none` until
`abort` sets it. -/
structure Payload where
  scenario_id : String
  scenario_title : String
  started_at : String
  note : Option String
  dry_run : Bool
  steps : List StepEntry
  failed : Option String := none
deriving Repr

/-- Recorder state: the in-memory payload, the `_finalized` flag, the
storage key, and the current content of the artifact file (`none` while
nothing has been written). -/
structure RecorderState where
  payload : Payload
  finalized : Bool
  filePath : String
  persisted : Option Payload
deriving Repr

/-- Storage key of a run artifact: timestamp, scenario id, and an
optional note with spaces replaced by underscores. -/
def runFilePath (timestamp : String) (scenarioId : String) (note : Option String) : String :=
  let safeNote := match note with
    | some n => if n = "" then "" else n.replace " " "_"
    | none => ""
  let suffix := if safeNote = "" then "" else "_" ++ safeNote
  timestamp ++ "_" ++ scenarioId ++ suffix ++ ".json"

/-- Constructor `ChaosRunRecorder.__init__`: assign the timestamp-qualified storage
key and initialise the in-memory payload with run metadata and an empty
step list. -/
def ChaosRunRecorder.init (scenario : ChaosScenario) (note : Option String)
    (dryRun : Bool) (timestamp : String) : RecorderState :=
  { payload :=
      { scenario_id := scenario.id
        scenario_title := scenario.title
        started_at := timestamp
        note := note
        dry_run := dryRun
        steps := []
        failed := none }
    finalized := false
    filePath := runFilePath timestamp scenario.id note
    persisted := none }

/-- Recorder `ChaosRunRecorder.append_step`: push the merged step entry onto the
in-memory step list. -/
def ChaosRunRecorder.append_step (s : RecorderState) (step : ChaosStep)
    (status : String) (detail : Dict) : RecorderState :=
  { s with payload :=
      { s.payload with steps :=
          s.payload.steps ++ [{ step_id := step.id, action := step.action,
                                status := status, detail := detail }] } }

/-- Recorder `ChaosRunRecorder.finalize`: write the payload to the artifact file
once; later calls are ignored. -/
def ChaosRunRecorder.finalize (s : RecorderState) : RecorderState :=
  if s.finalized then s
  else { s with persisted := some s.payload, finalized := true }

/-- Recorder `ChaosRunRecorder.abort`: record the failure description in the
payload, then seal via `finalize`. -/
def ChaosRunRecorder.abort (s : RecorderState) (error : String) : RecorderState :=
  ChaosRunRecorder.finalize
    { s with payload := { s.payload with failed := some error } }

/-- Read of `detail["status"]` back as a string when recording a step (the
executor always stores a string there). -/
def statusOf (detail : Dict) : String :=
  match detail.getD "status" with
  | Json.str s => s
  | _ => ""

/-- The step loop of `ChaosRunner.run`: execute each step, evaluate its
SLO, and append the merged outcome; on the first exception, abort the
recorder with the exception's description and re-raise. Returns the
accumulated effects, the final recorder state, and the overall result. -/
def runSteps (w : World) (dryRun : Bool) (steps : List ChaosStep)
    (s : RecorderState) : List Effect × RecorderState × Except String Unit :=
  match steps with
  | [] => ([], s, Except.ok ())
  | step :: rest =>
    let (effs, res) := executeStep w step dryRun
    match res with
    | Except.error e => (effs, ChaosRunRecorder.abort s e, Except.error e)
    | Except.ok result =>
      match assertSlo step result with
      | SloOutcome.fail _ e => (effs, ChaosRunRecorder.abort s e, Except.error e)
      | SloOutcome.ok sloReport =>
        let s := ChaosRunRecorder.append_step s step (statusOf result)
          (Dict.merge result sloReport)
        let (effs2, s2, r2) := runSteps w dryRun rest s
        (effs ++ effs2, s2, r2)

/-- Orchestrator `ChaosRunner.run` on a scenario value: create the recorder, drive the
step loop, and seal the record — `finalize` on success, `abort` (inside
`runSteps`) on failure. -/
def ChaosRunner.run (w : World) (scenario : ChaosScenario) (dryRun : Bool)
    (note : Option String) (timestamp : String) :
    List Effect × RecorderState × Except String Unit :=
  let s0 := ChaosRunRecorder.init scenario note dryRun timestamp
  match runSteps w dryRun scenario.steps s0 with
  | (effs, s, Except.ok ()) => (effs, ChaosRunRecorder.finalize s, Except.ok ())
  | (effs, s, Except.error e) => (effs, s, Except.error e)

/-- Lookup `ChaosRunner.show`: catalog lookup, `KeyError` when absent. -/
def ChaosRunner.show (scenarios : List (String × ChaosScenario)) (scenarioId : String) :
    Except String ChaosScenario :=
  match scenarios.find? (fun kv => kv.1 == scenarioId) with
  | some kv => Except.ok kv.2
  | none => Except.error ("未找到场景 " ++ scenarioId)

/-- The two sealing operations of the recorder. -/
inductive SealOp where
  | fin : SealOp
  | ab (error : String) : SealOp
deriving Repr

/-- Apply one sealing operation. -/
def applySeal (s : RecorderState) : SealOp → RecorderState
  | SealOp.fin => ChaosRunRecorder.finalize s
  | SealOp.ab e => ChaosRunRecorder.abort s e

/-- Apply a sequence of sealing operations in order. -/
def applySeals (s : RecorderState) (ops : List SealOp) : RecorderState :=
  ops.foldl applySeal s

/-- Rendering of `payload.get('note') or '无'`: an absent or empty
optional string renders as the placeholder. -/
def renderNote : Option String → String
  | none => "无"
  | some s => if s = "" then "无" else s

mutual

/-- Python `repr()` of a JSON value, as used inside printed lists and
dicts and as the `str()` of every non-string value. Numbers print as the
rational's canonical form: which distinct numbers share a printed form
differs from IEEE floats, but the collision phenomenon (a number and a
string can print identically) is preserved. -/
def pyRepr : Json → String
  | Json.null => "None"
  | Json.bool true => "True"
  | Json.bool false => "False"
  | Json.num q => toString q
  | Json.str s => "\x27" ++ s ++ "\x27"
  | Json.arr xs => "[" ++ pyReprList xs ++ "]"
  | Json.obj fs => "\x7b" ++ pyReprObj fs ++ "\x7d"

/-- Comma-joined element reprs of a printed list. -/
def pyReprList : List Json → String
  | [] => ""
  | [x] => pyRepr x
  | x :: xs => pyRepr x ++ ", " ++ pyReprList xs

/-- Comma-joined `key: value` reprs of a printed dict. -/
def pyReprObj : List (String × Json) → String
  | [] => ""
  | [kv] => "\x27" ++ kv.1 ++ "\x27: " ++ pyRepr kv.2
  | kv :: fs => "\x27" ++ kv.1 ++ "\x27: " ++ pyRepr kv.2 ++ ", " ++ pyReprObj fs

end

/-- Python `str()` of an interpolated value: strings print verbatim
(losing the distinction from their repr), everything else prints as its
repr — in particular a stored null prints as the text None. -/
def pyStr : Json → String
  | Json.str s => s
  | v => pyRepr v

/-- Python `str()` of a bool. -/
def pyBool : Bool → String
  | true => "True"
  | false => "False"

/-- Concatenation of printed chunks. -/
def sconcat : List String → String
  | [] => ""
  | s :: rest => s ++ sconcat rest

/-- The lines `replay` prints for one recorded step: the summary line
and one line per non-status detail pair, every value `str()`-interpolated. -/
def entryLineStrs (e : StepEntry) : List String :=
  ("- " ++ e.step_id ++ " (" ++ e.action ++ "): " ++ e.status) ::
    (e.detail.filter (fun kv => kv.1 != "status")).map
      (fun kv => "    · " ++ kv.1 ++ ": " ++ pyStr kv.2)

/-- The text `replay` prints for one recorded step: each of its lines
followed by a newline. -/
def renderStepText (e : StepEntry) : String :=
  sconcat ((entryLineStrs e).map (fun s => s ++ "\n"))

/-- The five header lines and the step-list title `replay` prints before
the step section; every interpolated value appears as its Python `str()`
text. -/
def headerLineStrs (p : Payload) : List String :=
  ["场景: " ++ p.scenario_id ++ " - " ++ p.scenario_title,
   "启动时间: " ++ p.started_at,
   "Dry-run: " ++ pyBool p.dry_run,
   "备注: " ++ renderNote p.note,
   "失败原因: " ++ renderNote p.failed,
   "步骤明细："]

/-- Function `replay`: the exact text printed for a loaded payload — the
dedented and stripped five-line header and the step-list title, then
each step's lines in order, every line followed by the newline its print
call emits. The `textwrap.dedent` of the literal template is applied
here once; fields containing newlines, which could perturb that dedent,
lie outside the faithful domain defined below. -/
def render (p : Payload) : String :=
  sconcat ((headerLineStrs p).map (fun s => s ++ "\n")) ++
    sconcat (p.steps.map renderStepText)

/-- Split a character stream into its physical lines (the text after the
final newline forms the last line). -/
def splitLinesAux : List Char → List Char → List (List Char)
  | [], acc => [acc.reverse]
  | c :: rest, acc =>
    if c = '\n' then acc.reverse :: splitLinesAux rest []
    else splitLinesAux rest (c :: acc)

/-- Physical lines of a character stream. -/
def splitLines (l : List Char) : List (List Char) :=
  splitLinesAux l []

/-- Remove a leading literal from a character stream, or fail. -/
def stripLead : List Char → List Char → Option (List Char)
  | [], l => some l
  | _ :: _, [] => none
  | c :: p, d :: l => if c = d then stripLead p l else none

/-- Split a character stream at the first occurrence of a separator. -/
def splitFirst (sep : List Char) : List Char → Option (List Char × List Char)
  | [] => none
  | c :: rest =>
    match stripLead sep (c :: rest) with
    | some r => some ([], r)
    | none => (splitFirst sep rest).map (fun pr => (c :: pr.1, pr.2))

/-- Whether a separator occurs anywhere in a character stream. -/
def hasSub (sep : List Char) : List Char → Bool
  | [] => (stripLead sep ([] : List Char)).isSome
  | c :: rest => (stripLead sep (c :: rest)).isSome || hasSub sep rest

/-- A field that splits cleanly before a separator: no occurrence of the
separator starts inside the field or across its boundary into the
separator itself. -/
abbrev SepClean (sep a : List Char) : Prop :=
  hasSub sep (a ++ sep.dropLast) = false

/-- Read a printed bool back. -/
def parseBool (l : List Char) : Option Bool :=
  if l = "True".data then some true
  else if l = "False".data then some false
  else none

/-- Read an optional field back from its placeholder rendering. -/
def parseNoteChars (l : List Char) : Option String :=
  if l = "无".data then none else some (String.mk l)

/-- Close the step entry being accumulated while parsing printed lines:
the skipped `status` detail entry is reinserted at the front, where the
recorder always writes it. -/
def closeEntry : String × String × String × List (String × Json) → StepEntry
  | (i, a, st, ds) =>
    { step_id := i, action := a, status := st,
      detail := ("status", Json.str st) :: ds.reverse }

/-- Parse the step section of the printed replay, one physical line per
element, tracking the entry currently being accumulated; printed detail
values are recovered as the strings they appear as. -/
def parseStepLines : List (List Char) →
    Option (String × String × String × List (String × Json)) →
    Option (List StepEntry)
  | [], _ => none
  | l :: rest, cur =>
    if l = [] then
      match rest, cur with
      | [], none => some []
      | [], some c => some [closeEntry c]
      | _ :: _, _ => none
    else
      match stripLead "- ".data l with
      | some r =>
        match splitFirst " (".data r with
        | none => none
        | some (ic, r2) =>
          match splitFirst "): ".data r2 with
          | none => none
          | some (ac, stc) =>
            match cur with
            | none =>
              parseStepLines rest
                (some (String.mk ic, String.mk ac, String.mk stc, []))
            | some c =>
              (parseStepLines rest
                (some (String.mk ic, String.mk ac, String.mk stc, []))).map
                (fun es => closeEntry c :: es)
      | none =>
        match stripLead "    · ".data l with
        | some r =>
          match splitFirst ": ".data r with
          | none => none
          | some (kc, vc) =>
            match cur with
            | none => none
            | some (i, a, st, ds) =>
              parseStepLines rest
                (some (i, a, st, (String.mk kc, Json.str (String.mk vc)) :: ds))
        | none => none

/-- Parse a full printed replay back into a payload. -/
def parseRenderText (s : String) : Option Payload :=
  match splitLines s.data with
  | l1 :: l2 :: l3 :: l4 :: l5 :: l6 :: rest =>
    match stripLead "场景: ".data l1 with
    | none => none
    | some r1 =>
      match splitFirst " - ".data r1 with
      | none => none
      | some (sidc, titlec) =>
        match stripLead "启动时间: ".data l2 with
        | none => none
        | some startedc =>
          match stripLead "Dry-run: ".data l3 with
          | none => none
          | some dryc =>
            match parseBool dryc with
            | none => none
            | some dry =>
              match stripLead "备注: ".data l4 with
              | none => none
              | some notec =>
                match stripLead "失败原因: ".data l5 with
                | none => none
                | some failedc =>
                  if l6 = "步骤明细：".data then
                    match parseStepLines rest none with
                    | none => none
                    | some es =>
                      some { scenario_id := String.mk sidc,
                             scenario_title := String.mk titlec,
                             started_at := String.mk startedc,
                             note := parseNoteChars notec,
                             dry_run := dry,
                             steps := es,
                             failed := parseNoteChars failedc }
                  else none
  | _ => none

/-- One detail pair replaced by its printed text. -/
def textifyVal (kv : String × Json) : String × Json :=
  (kv.1, Json.str (pyStr kv.2))

/-- A step entry with every detail value replaced by its printed text. -/
def textifyEntry (e : StepEntry) : StepEntry :=
  { e with detail := e.detail.map textifyVal }

/-- Textual image of a payload: every detail value replaced by the
string `replay` prints for it; all other fields unchanged. Payloads
whose detail values are all strings are fixed points. -/
def textify (p : Payload) : Payload :=
  { p with steps := p.steps.map textifyEntry }

/-- An optional string the placeholder rendering is faithful to: absent,
or a non-empty text other than the placeholder itself. -/
def renderableOpt (o : Option String) : Prop :=
  ∀ s, o = some s → (s ≠ "" ∧ s ≠ "无")

/-- A recorder-produced step entry: its detail dict starts with the
`status` entry, whose value is the recorded step status, and no later
entry reuses the key. -/
def detailOk (e : StepEntry) : Prop :=
  ∃ rest, e.detail = ("status", Json.str e.status) :: rest ∧
    ∀ kv ∈ rest, kv.1 ≠ "status"

/-- A printed field free of newlines. -/
abbrev noNL (s : String) : Prop := '\n' ∉ s.data

/-- An optional printed field free of newlines. -/
def noNLopt : Option String → Prop
  | none => True
  | some s => noNL s

/-- A step entry whose printed lines represent it without ambiguity:
fields free of newlines, the id and action free of the summary line's
separators, detail keys free of the detail separator, and the detail
dict led by its `status` entry as the recorder writes it. -/
def entryFaithful (e : StepEntry) : Prop :=
  noNL e.step_id ∧ noNL e.action ∧ noNL e.status ∧
  SepClean " (".data e.step_id.data ∧
  SepClean "): ".data e.action.data ∧
  detailOk e ∧
  ∀ kv ∈ e.detail, noNL kv.1 ∧ noNL (pyStr kv.2) ∧ SepClean ": ".data kv.1.data

/-- Payloads whose printed replay is unambiguous: fields free of
newlines, scenario id free of the header's joining separator, note and
failure text absent or distinct from the degenerate placeholder forms,
and every step entry faithful. -/
def RenderFaithful (p : Payload) : Prop :=
  noNL p.scenario_id ∧ noNL p.scenario_title ∧ noNL p.started_at ∧
  noNLopt p.note ∧ noNLopt p.failed ∧
  renderableOpt p.note ∧ renderableOpt p.failed ∧
  SepClean " - ".data p.scenario_id.data ∧
  ∀ e ∈ p.steps, entryFaithful e

/-- One recorder instantiation (run creation event): the serial number
distinguishes distinct runs; the storage identity is derived only from
the second-resolution timestamp, the scenario id and the note. -/
structure RunCreation where
  serial : Nat
  timestamp : String
  scenarioId : String
  note : Option String
deriving Repr, DecidableEq

/-- The storage identity `ChaosRunRecorder.__init__` assigns to a run. -/
def storageId (r : RunCreation) : String :=
  runFilePath r.timestamp r.scenarioId r.note

/-- A world with no metrics endpoint and inert oracles, used to evaluate
concrete runs. -/
def demoWorld : World :=
  ⟨none, fun _ => Except.ok ⟨"", ""⟩, fun _ => Except.ok none⟩

/-- A two-step demo scenario: a shell step and a metric check. -/
def demoScenario : ChaosScenario :=
  { id := "sc", title := "Demo", description := "d", impact := "i",
    steady_state_check := [],
    steps := [{ id := "s1", action := "shell", command := some "echo ok" },
              { id := "s2", action := "check-metric", query := some "q1" }] }

/-- A scenario whose single step has an unsupported action, so its run
fails at that step. -/
def demoFailScenario : ChaosScenario :=
  { id := "scf", title := "Fail", description := "d", impact := "i",
    steady_state_check := [],
    steps := [{ id := "s1", action := "boom" },
              { id := "s2", action := "shell", command := some "echo ok" }] }

/-- A one-step dry-run demo scenario used to compare rendered replays. -/
def demoTinyScenario : ChaosScenario :=
  { id := "demo", title := "Tiny", description := "d", impact := "i",
    steady_state_check := [],
    steps := [{ id := "s1", action := "shell", command := some "echo" }] }

/-- The tiny scenario with the literal text None as the step's
observation: its run record prints identically to `demoTinyScenario`'s,
whose observation is a stored null. -/
def demoTinyScenarioObs : ChaosScenario :=
  { id := "demo", title := "Tiny", description := "d", impact := "i",
    steady_state_check := [],
    steps := [{ id := "s1", action := "shell", command := some "echo",
                observation := some "None" }] }

/-- A concrete sealed payload, with all-string detail values, used to
witness the replay round-trip. -/
def demoPayload : Payload :=
  { scenario_id := "demo", scenario_title := "Tiny", started_at := "T",
    note := some "oncall", dry_run := true,
    steps := [{ step_id := "s1", action := "shell", status := "skipped",
                detail := [("status", Json.str "skipped"),
                           ("observation", Json.str "ok"),
                           ("command", Json.str "echo"),
                           ("output", Json.str "dry-run 未执行")] }],
    failed := none }

theorem Dict.getD_set_self (d : Dict) (k : String) (v : Json) :
    (d.set k v).getD k = v := by
  induction d with
  | nil => simp [Dict.set, Dict.getD]
  | cons kv rest ih =>
    simp only [Dict.set]
    by_cases h : kv.1 = k
    · rw [if_pos (by simpa using h)]
      simp [Dict.getD, List.find?]
    · rw [if_neg (by simpa using h)]
      simp only [Dict.getD, List.find?] at ih ⊢
      rw [(show (kv.1 == k) = false by simpa using h)]
      exact ih

theorem Dict.getD_set_ne (d : Dict) (k k' : String) (v : Json) (h : k' ≠ k) :
    (d.set k v).getD k' = d.getD k' := by
  induction d with
  | nil =>
    simp only [Dict.set, Dict.getD, List.find?]
    rw [(show (k == k') = false by simpa using Ne.symm h)]
  | cons kv rest ih =>
    simp only [Dict.set]
    by_cases hk : kv.1 = k
    · rw [if_pos (by simpa using hk)]
      simp only [Dict.getD, List.find?]
      rw [(show (k == k') = false by simpa using Ne.symm h),
        (show (kv.1 == k') = false by rw [hk]; simpa using Ne.symm h)]
    · rw [if_neg (by simpa using hk)]
      by_cases hkv : kv.1 = k'
      · simp [Dict.getD, List.find?, hkv]
      · simp only [Dict.getD, List.find?] at ih ⊢
        rw [(show (kv.1 == k') = false by simpa using hkv)]
        exact ih

/-- C5: for a step carrying an `expected_slo` whose execution result has
no metric value (Python `None`, covering both an absent key and a stored
null — metric backend unavailable, or a shell-only step), `_assert_slo`
returns normally with a report whose `slo_status` is `pending`. -/
theorem slo_pending_when_no_metric (step : ChaosStep) (slo : SLOExpectation)
    (result : Dict)
    (hslo : step.expected_slo = some slo)
    (hval : result.getD "metric_value" = Json.null) :
    ∃ r, assertSlo step result = SloOutcome.ok r ∧
      r.getD "slo_status" = Json.str "pending" := by
  refine ⟨(sloReportBase slo).set "slo_status" (Json.str "pending"),
    ?_, Dict.getD_set_self _ _ _⟩
  simp only [assertSlo, hslo, hval]

/-- Witness for C5 at a concrete step and result. -/
theorem slo_pending_when_no_metric_witness :
    ∃ r, assertSlo
        { id := "s1", action := "check-metric", query := some "q",
          expected_slo := some ⟨"latency_p95", "<=", 100⟩ }
        [("status", Json.str "skipped"), ("observation", Json.null),
         ("metric_query", Json.str "q"), ("metric_value", Json.null)] =
      SloOutcome.ok r ∧ r.getD "slo_status" = Json.str "pending" :=
  slo_pending_when_no_metric _ ⟨"latency_p95", "<=", 100⟩ _ rfl rfl

/-- C1: with an `expected_slo` of comparison `<=` and threshold T and a
metric value V in the step result, `_assert_slo` passes iff V ≤ T; with
`>=` it passes iff V ≥ T; the boundary V = T passes for both directions.
On pass it returns a report with `slo_status` `met`; on failure the
report holds `slo_status` `violated` and an `AssertionError` is raised
instead of returning normally. -/
theorem slo_comparison_behaviour (step : ChaosStep) (slo : SLOExpectation)
    (result : Dict) (v : Rat)
    (hslo : step.expected_slo = some slo)
    (hval : result.getD "metric_value" = Json.num v) :
    (slo.comparison = "<=" →
      ((v ≤ slo.threshold →
          assertSlo step result = SloOutcome.ok (sloReportMet slo v) ∧
            (sloReportMet slo v).getD "slo_status" = Json.str "met") ∧
       (¬ v ≤ slo.threshold →
          assertSlo step result =
              SloOutcome.fail (sloReportViolated slo v) (sloViolationMsg step slo v) ∧
            (sloReportViolated slo v).getD "slo_status" = Json.str "violated"))) ∧
    (slo.comparison = ">=" →
      ((slo.threshold ≤ v →
          assertSlo step result = SloOutcome.ok (sloReportMet slo v) ∧
            (sloReportMet slo v).getD "slo_status" = Json.str "met") ∧
       (¬ slo.threshold ≤ v →
          assertSlo step result =
              SloOutcome.fail (sloReportViolated slo v) (sloViolationMsg step slo v) ∧
            (sloReportViolated slo v).getD "slo_status" = Json.str "violated"))) ∧
    (v = slo.threshold →
      assertSlo step result = SloOutcome.ok (sloReportMet slo v)) := by
  have hmet : (sloReportMet slo v).getD "slo_status" = Json.str "met" :=
    Dict.getD_set_self _ _ _
  have hviol : (sloReportViolated slo v).getD "slo_status" = Json.str "violated" :=
    Dict.getD_set_self _ _ _
  refine ⟨?_, ?_, ?_⟩
  · intro hcmp
    refine ⟨fun hle => ⟨?_, hmet⟩, fun hgt => ⟨?_, hviol⟩⟩
    · simp [assertSlo, hslo, hval, hcmp, hle]
    · simp [assertSlo, hslo, hval, hcmp, hgt]
  · intro hcmp
    refine ⟨fun hle => ⟨?_, hmet⟩, fun hgt => ⟨?_, hviol⟩⟩
    · simp [assertSlo, hslo, hval, hcmp, hle]
    · simp [assertSlo, hslo, hval, hcmp, hgt]
  · intro hb
    by_cases hcmp : slo.comparison = "<="
    · simp [assertSlo, hslo, hval, hcmp, hb]
    · simp [assertSlo, hslo, hval, hcmp, hb, le_refl]

/-- Witness for C1: threshold 100 with values 100 (boundary, both
directions pass) and 150 (fails for `<=`). -/
theorem slo_comparison_behaviour_witness :
    (assertSlo
        { id := "s1", action := "check-metric",
          expected_slo := some ⟨"m", "<=", 100⟩ }
        [("metric_value", Json.num 100)] =
      SloOutcome.ok (sloReportMet ⟨"m", "<=", 100⟩ 100)) ∧
    (assertSlo
        { id := "s1", action := "check-metric",
          expected_slo := some ⟨"m", ">=", 100⟩ }
        [("metric_value", Json.num 100)] =
      SloOutcome.ok (sloReportMet ⟨"m", ">=", 100⟩ 100)) ∧
    (assertSlo
        { id := "s1", action := "check-metric",
          expected_slo := some ⟨"m", "<=", 100⟩ }
        [("metric_value", Json.num 150)] =
      SloOutcome.fail (sloReportViolated ⟨"m", "<=", 100⟩ 150)
        (sloViolationMsg
          { id := "s1", action := "check-metric",
            expected_slo := some ⟨"m", "<=", 100⟩ } ⟨"m", "<=", 100⟩ 150)) :=
  ⟨(slo_comparison_behaviour
      { id := "s1", action := "check-metric", expected_slo := some ⟨"m", "<=", 100⟩ }
      ⟨"m", "<=", 100⟩ [("metric_value", Json.num 100)] 100 rfl rfl).2.2 rfl,
   (slo_comparison_behaviour
      { id := "s1", action := "check-metric", expected_slo := some ⟨"m", ">=", 100⟩ }
      ⟨"m", ">=", 100⟩ [("metric_value", Json.num 100)] 100 rfl rfl).2.2 rfl,
   (((slo_comparison_behaviour
      { id := "s1", action := "check-metric", expected_slo := some ⟨"m", "<=", 100⟩ }
      ⟨"m", "<=", 100⟩ [("metric_value", Json.num 150)] 150 rfl rfl).1 rfl).2
     (by norm_num)).1⟩

/-- C6: executing a `shell` step with the dry-run flag set spawns no
child process (no `spawn` effect, for any world), and the result has
status `skipped`, carries the no-side-effect marker, and records the
command without running it. -/
theorem dry_run_shell_skipped (w : World) (step : ChaosStep) (c : String)
    (ha : step.action = "shell") (hc : step.command = some c) (hne : c ≠ "") :
    (executeStep w step true).1 = [] ∧
    ∃ d, (executeStep w step true).2 = Except.ok d ∧
      d.getD "status" = Json.str "skipped" ∧
      d.getD "output" = Json.str "dry-run 未执行" ∧
      d.getD "command" = Json.str c := by
  have hfalsy : optStrFalsy step.command = false := by
    rw [hc]; simpa [optStrFalsy] using hne
  have hgetc : step.command.getD "" = c := by rw [hc]; rfl
  have hexe : executeStep w step true =
      ([], Except.ok
        (Dict.set
          (Dict.set
            (Dict.set
              [("status", Json.str "success"),
               ("observation", jsonOfOptStr step.observation)]
              "command" (Json.str c))
            "status" (Json.str "skipped"))
          "output" (Json.str "dry-run 未执行"))) := by
    simp [executeStep, ha, hfalsy, hgetc]
  refine ⟨by rw [hexe], _, by rw [hexe], ?_, ?_, ?_⟩
  · rw [Dict.getD_set_ne _ _ _ _ (by decide)]
    exact Dict.getD_set_self _ _ _
  · exact Dict.getD_set_self _ _ _
  · rw [Dict.getD_set_ne _ _ _ _ (by decide), Dict.getD_set_ne _ _ _ _ (by decide)]
    exact Dict.getD_set_self _ _ _

/-- Witness for C6 at a concrete step, in a world whose process oracle
would visibly succeed if it were (wrongly) consulted. -/
theorem dry_run_shell_skipped_witness :
    (executeStep
        ⟨some "http://monitor", fun c => Except.ok ⟨"ran " ++ c, ""⟩,
          fun _ => Except.ok (some 1)⟩
        { id := "s1", action := "shell", command := some "systemctl stop app" }
        true).1 = [] ∧
    ∃ d, (executeStep
        ⟨some "http://monitor", fun c => Except.ok ⟨"ran " ++ c, ""⟩,
          fun _ => Except.ok (some 1)⟩
        { id := "s1", action := "shell", command := some "systemctl stop app" }
        true).2 = Except.ok d ∧
      d.getD "status" = Json.str "skipped" ∧
      d.getD "output" = Json.str "dry-run 未执行" ∧
      d.getD "command" = Json.str "systemctl stop app" :=
  dry_run_shell_skipped _ _ "systemctl stop app" rfl rfl (by decide)

theorem applySeal_finalized (s : RecorderState) (op : SealOp) :
    (applySeal s op).finalized = true := by
  cases op with
  | fin =>
    simp only [applySeal, ChaosRunRecorder.finalize]
    by_cases h : s.finalized = true
    · simp [h]
    · simp [h]
  | ab e =>
    simp only [applySeal, ChaosRunRecorder.abort, ChaosRunRecorder.finalize]
    by_cases h : s.finalized = true
    · simp [h]
    · simp [h]

theorem applySeal_persisted_of_finalized (s : RecorderState) (op : SealOp)
    (h : s.finalized = true) :
    (applySeal s op).persisted = s.persisted := by
  cases op with
  | fin => simp [applySeal, ChaosRunRecorder.finalize, h]
  | ab e => simp [applySeal, ChaosRunRecorder.abort, ChaosRunRecorder.finalize, h]

theorem applySeals_persisted_of_finalized (ops : List SealOp) :
    ∀ s : RecorderState, s.finalized = true →
      (applySeals s ops).persisted = s.persisted := by
  induction ops with
  | nil => intro s _; rfl
  | cons op rest ih =>
    intro s h
    show (applySeals (applySeal s op) rest).persisted = s.persisted
    rw [ih (applySeal s op) (applySeal_finalized s op),
      applySeal_persisted_of_finalized s op h]

/-- C4: sealing is idempotent — after the first `finalize` or `abort`
call on a recorder, any further sequence of `finalize`/`abort` calls
leaves the persisted artifact exactly as the first seal left it, so at
most one artifact is written per run. -/
theorem seal_idempotent (s : RecorderState) (op : SealOp) (ops : List SealOp) :
    (applySeals (applySeal s op) ops).persisted = (applySeal s op).persisted :=
  applySeals_persisted_of_finalized ops (applySeal s op) (applySeal_finalized s op)

/-- C10: a raw step whose `expected_slo` key is present but bound to a
falsy value is constructed with no SLO expectation and no error — the
`comparison`/`threshold` validation is skipped — and scenario
construction succeeds around it. -/
theorem falsy_expected_slo_ignored (data : RawScenario) (raw : RawStep) (v : Json)
    (hsteps : data.steps = [raw])
    (hslo : raw.expected_slo = some v)
    (hfalsy : v.truthy = false) :
    parseStep raw = Except.ok
      { id := raw.id, action := raw.action, command := raw.command,
        query := raw.query, rollback := raw.rollback, expected_slo := none,
        observation := raw.observation } ∧
    ChaosScenario.from_dict data = Except.ok
      { id := data.id, title := data.title, description := data.description,
        impact := data.impact, steady_state_check := data.steady_state_check,
        steps := [{ id := raw.id, action := raw.action, command := raw.command,
                    query := raw.query, rollback := raw.rollback,
                    expected_slo := none, observation := raw.observation }] } := by
  have hstep : parseStep raw = Except.ok
      { id := raw.id, action := raw.action, command := raw.command,
        query := raw.query, rollback := raw.rollback, expected_slo := none,
        observation := raw.observation } := by
    simp [parseStep, hslo, hfalsy, pure, Except.pure]
    rfl
  refine ⟨hstep, ?_⟩
  simp [ChaosScenario.from_dict, hsteps, List.mapM, List.mapM.loop, hstep,
    pure, Except.pure, Except.bind]
  rfl

/-- Witness for C10: `expected_slo` bound to an empty object. -/
theorem falsy_expected_slo_ignored_witness :
    parseStep
      { id := "s1", action := "shell", command := some "echo ok",
        expected_slo := some (Json.obj []) } = Except.ok
      { id := "s1", action := "shell", command := some "echo ok",
        query := none, rollback := none, expected_slo := none,
        observation := none } ∧
    ChaosScenario.from_dict
      { id := "sc", title := "t", description := "d", impact := "i",
        steady_state_check := [],
        steps := [{ id := "s1", action := "shell", command := some "echo ok",
                    expected_slo := some (Json.obj []) }] } = Except.ok
      { id := "sc", title := "t", description := "d", impact := "i",
        steady_state_check := [],
        steps := [{ id := "s1", action := "shell", command := some "echo ok",
                    query := none, rollback := none, expected_slo := none,
                    observation := none }] } :=
  falsy_expected_slo_ignored
    { id := "sc", title := "t", description := "d", impact := "i",
      steady_state_check := [],
      steps := [{ id := "s1", action := "shell", command := some "echo ok",
                  expected_slo := some (Json.obj []) }] }
    { id := "s1", action := "shell", command := some "echo ok",
      expected_slo := some (Json.obj []) }
    (Json.obj []) rfl rfl rfl


theorem Except.ok_bind {ε α β : Type} (a : α) (f : α → Except ε β) :
    (Except.ok a : Except ε α) >>= f = f a := rfl

theorem Except.error_bind {ε α β : Type} (e : ε) (f : α → Except ε β) :
    (Except.error e : Except ε α) >>= f = Except.error e := rfl

/-- C7 counterexample: a scenario whose only step is a `shell` step with
no `command` is accepted by `ChaosScenario.from_dict`; the configuration
error surfaces only when `_execute_step` runs that step. -/
theorem eager_validation_counterexample :
    ChaosScenario.from_dict
      { id := "sc", title := "t", description := "d", impact := "i",
        steady_state_check := [],
        steps := [{ id := "s1", action := "shell" }] } = Except.ok
      { id := "sc", title := "t", description := "d", impact := "i",
        steady_state_check := [],
        steps := [{ id := "s1", action := "shell", command := none, query := none,
                    rollback := none, expected_slo := none, observation := none }] } ∧
    (executeStep ⟨none, fun _ => Except.ok ⟨"", ""⟩, fun _ => Except.ok none⟩
        { id := "s1", action := "shell" } false).2 =
      Except.error "步骤 s1 缺少 command" :=
  ⟨rfl, rfl⟩

/-- C7 amended: construction rejects only zero-step scenarios and (for a
truthy `expected_slo`) an unsupported comparison operator; a `shell` step
without `command`, a `check-metric` step without `query`, and an
unsupported action value pass construction and raise only at
step-execution time. -/
theorem eager_validation_amended :
    (∀ data : RawScenario, data.steps = [] →
      ChaosScenario.from_dict data =
        Except.error ("场景 " ++ data.id ++ " 未定义任何步骤")) ∧
    (∀ (raw : RawStep) (n c : String) (t : Rat),
      raw.expected_slo = some (Json.obj
        [("name", Json.str n), ("comparison", Json.str c),
         ("threshold", Json.num t)]) →
      c ≠ "<=" → c ≠ ">=" →
      parseStep raw = Except.error ("不支持的 comparison: " ++ c)) ∧
    (∀ (w : World) (step : ChaosStep) (dryRun : Bool), step.action = "shell" →
      optStrFalsy step.command = true →
      (executeStep w step dryRun).2 =
        Except.error ("步骤 " ++ step.id ++ " 缺少 command")) ∧
    (∀ (w : World) (step : ChaosStep) (dryRun : Bool), step.action = "check-metric" →
      optStrFalsy step.query = true →
      (executeStep w step dryRun).2 =
        Except.error ("步骤 " ++ step.id ++ " 缺少 query")) ∧
    (∀ (w : World) (step : ChaosStep) (dryRun : Bool),
      step.action ≠ "shell" → step.action ≠ "check-metric" →
      (executeStep w step dryRun).2 =
        Except.error ("未知的步骤类型: " ++ step.action)) := by
  refine ⟨?_, ?_, ?_, ?_, ?_⟩
  · intro data h
    simp [ChaosScenario.from_dict, h, List.mapM, List.mapM.loop, pure,
      Except.pure, Except.ok_bind, Except.error_bind]
  · intro raw n c t h hc1 hc2
    simp [parseStep, h, Json.truthy, Json.index, List.find?, Json.asStr,
      Json.toFloat, SLOExpectation.make, hc1, hc2, pure, Except.pure,
      Except.ok_bind, Except.error_bind]
  · intro w step dryRun ha hf
    simp [executeStep, ha, hf]
  · intro w step dryRun ha hf
    simp [executeStep, ha, hf]
  · intro w step dryRun h1 h2
    simp [executeStep, h1, h2]

/-- Witness for C7 amended, at concrete scenarios/steps. -/
theorem eager_validation_amended_witness :
    ChaosScenario.from_dict
      { id := "sc", title := "t", description := "d", impact := "i",
        steady_state_check := [], steps := [] } =
      Except.error ("场景 " ++ "sc" ++ " 未定义任何步骤") ∧
    parseStep
      { id := "s1", action := "shell",
        expected_slo := some (Json.obj
          [("name", Json.str "m"), ("comparison", Json.str "=="),
           ("threshold", Json.num 1)]) } =
      Except.error ("不支持的 comparison: " ++ "==") ∧
    (executeStep ⟨none, fun _ => Except.ok ⟨"", ""⟩, fun _ => Except.ok none⟩
        { id := "s1", action := "shell" } false).2 =
      Except.error ("步骤 " ++ "s1" ++ " 缺少 command") ∧
    (executeStep ⟨none, fun _ => Except.ok ⟨"", ""⟩, fun _ => Except.ok none⟩
        { id := "s2", action := "check-metric" } false).2 =
      Except.error ("步骤 " ++ "s2" ++ " 缺少 query") ∧
    (executeStep ⟨none, fun _ => Except.ok ⟨"", ""⟩, fun _ => Except.ok none⟩
        { id := "s3", action := "pause" } false).2 =
      Except.error ("未知的步骤类型: " ++ "pause") :=
  ⟨eager_validation_amended.1 _ rfl,
   eager_validation_amended.2.1 _ "m" "==" 1 rfl (by decide) (by decide),
   eager_validation_amended.2.2.1 _ _ false rfl rfl,
   eager_validation_amended.2.2.2.1 _ _ false rfl rfl,
   eager_validation_amended.2.2.2.2 _ _ false (by decide) (by decide)⟩

theorem String.append_cancel_right_of_eq (a b c : String) (h : a ++ c = b ++ c) :
    a = b := by
  have hd := congrArg String.data h
  simp only [String.data_append] at hd
  exact String.ext (List.append_cancel_right hd)

/-- C9 counterexample: two distinct run creations within the same UTC
second, for the same scenario and note, are assigned the same storage
identity — the timestamp-qualified key does not prevent collisions. -/
theorem storage_identity_counterexample :
    (⟨0, "20260101T000000Z", "scn", none⟩ : RunCreation) ≠
      (⟨1, "20260101T000000Z", "scn", none⟩ : RunCreation) ∧
    storageId ⟨0, "20260101T000000Z", "scn", none⟩ =
      storageId ⟨1, "20260101T000000Z", "scn", none⟩ :=
  ⟨by decide, rfl⟩

/-- C9 amended: two runs of the same scenario with the same note receive
distinct storage identities whenever their creation timestamps (UTC,
second resolution) differ; only runs created within the same second can
collide. -/
theorem storage_identity_distinct_timestamps (r1 r2 : RunCreation)
    (hsid : r1.scenarioId = r2.scenarioId) (hnote : r1.note = r2.note)
    (ht : r1.timestamp ≠ r2.timestamp) :
    storageId r1 ≠ storageId r2 := by
  intro he
  apply ht
  unfold storageId runFilePath at he
  rw [hsid, hnote] at he
  simp only [← String.append_assoc] at he
  exact String.append_cancel_right_of_eq _ _ _
    (String.append_cancel_right_of_eq _ _ _
      (String.append_cancel_right_of_eq _ _ _
        (String.append_cancel_right_of_eq _ _ _ he)))

/-- Witness for C9 amended: runs one second apart do not collide. -/
theorem storage_identity_distinct_timestamps_witness :
    storageId ⟨0, "20260101T000000Z", "scn", some "oncall a"⟩ ≠
      storageId ⟨1, "20260101T000001Z", "scn", some "oncall a"⟩ :=
  storage_identity_distinct_timestamps
    ⟨0, "20260101T000000Z", "scn", some "oncall a"⟩
    ⟨1, "20260101T000001Z", "scn", some "oncall a"⟩
    rfl rfl (by decide)

theorem runSteps_ok_shape (w : World) (dryRun : Bool) :
    ∀ (steps : List ChaosStep) (s : RecorderState),
      (runSteps w dryRun steps s).2.2 = Except.ok () →
      ((runSteps w dryRun steps s).2.1.payload.steps.map
          (fun e => (e.step_id, e.action)) =
        s.payload.steps.map (fun e => (e.step_id, e.action)) ++
          steps.map (fun st => (st.id, st.action))) ∧
      (runSteps w dryRun steps s).2.1.finalized = s.finalized := by
  intro steps
  induction steps with
  | nil => intro s h; simp [runSteps]
  | cons step rest ih =>
    intro s h
    rcases hex : executeStep w step dryRun with ⟨effs, res⟩
    cases res with
    | error e => simp [runSteps, hex] at h
    | ok result =>
      cases hslo : assertSlo step result with
      | fail r e => simp [runSteps, hex, hslo] at h
      | ok sloReport =>
        rcases hr : runSteps w dryRun rest
            (ChaosRunRecorder.append_step s step (statusOf result)
              (Dict.merge result sloReport)) with ⟨effs2, s2, r2⟩
        have hh := ih (ChaosRunRecorder.append_step s step (statusOf result)
          (Dict.merge result sloReport))
        rw [hr] at hh
        simp only [runSteps, hex, hslo, hr] at h ⊢
        obtain ⟨h1, h2⟩ := hh h
        refine ⟨?_, by simpa [ChaosRunRecorder.append_step] using h2⟩
        rw [h1]
        simp [ChaosRunRecorder.append_step]

/-- C2: when `run` completes without an exception on a scenario with N
steps, the sealed (persisted) record holds exactly N step entries, one
per scenario step in original order, and persisting happened via
`finalize`. -/
theorem run_success_records_all_steps (w : World) (sc : ChaosScenario)
    (dryRun : Bool) (note : Option String) (ts : String)
    (h : (ChaosRunner.run w sc dryRun note ts).2.2 = Except.ok ()) :
    ∃ p, (ChaosRunner.run w sc dryRun note ts).2.1.persisted = some p ∧
      p.steps.map (fun e => (e.step_id, e.action)) =
        sc.steps.map (fun st => (st.id, st.action)) ∧
      p.steps.length = sc.steps.length := by
  rcases hr : runSteps w dryRun sc.steps
      (ChaosRunRecorder.init sc note dryRun ts) with ⟨effs, s, r⟩
  have hshape := runSteps_ok_shape w dryRun sc.steps
    (ChaosRunRecorder.init sc note dryRun ts)
  rw [hr] at hshape
  simp only [ChaosRunner.run] at h ⊢
  rw [hr] at h ⊢
  cases r with
  | error e => simp at h
  | ok u =>
    cases u
    obtain ⟨h1, h2⟩ := hshape rfl
    have hsteps : s.payload.steps.map (fun e => (e.step_id, e.action)) =
        sc.steps.map (fun st => (st.id, st.action)) := by
      simpa [ChaosRunRecorder.init] using h1
    have hfin : s.finalized = false := by
      simpa [ChaosRunRecorder.init] using h2
    refine ⟨s.payload, ?_, hsteps, ?_⟩
    · simp [ChaosRunRecorder.finalize, hfin]
    · have hlen := congrArg List.length hsteps
      simpa using hlen

/-- Witness for C2: a two-step dry-run scenario that completes cleanly. -/
theorem run_success_records_all_steps_witness :
    ∃ p, (ChaosRunner.run demoWorld demoScenario true none "T").2.1.persisted =
        some p ∧
      p.steps.map (fun e => (e.step_id, e.action)) =
        demoScenario.steps.map (fun st => (st.id, st.action)) ∧
      p.steps.length = demoScenario.steps.length :=
  run_success_records_all_steps demoWorld demoScenario true none "T" rfl

theorem runSteps_error_shape (w : World) (dryRun : Bool) :
    ∀ (steps : List ChaosStep) (s : RecorderState) (e : String),
      (runSteps w dryRun steps s).2.2 = Except.error e →
      s.finalized = false →
      ∃ done failStep rest',
        steps = done ++ failStep :: rest' ∧
        ∃ p, (runSteps w dryRun steps s).2.1.persisted = some p ∧
          p.failed = some e ∧
          p.steps.map (fun en => (en.step_id, en.action)) =
            s.payload.steps.map (fun en => (en.step_id, en.action)) ++
              done.map (fun st => (st.id, st.action)) := by
  intro steps
  induction steps with
  | nil => intro s e h _; simp [runSteps] at h
  | cons step rest ih =>
    intro s e h hfin
    rcases hex : executeStep w step dryRun with ⟨effs, res⟩
    cases res with
    | error e0 =>
      simp only [runSteps, hex] at h ⊢
      cases h
      refine ⟨[], step, rest, rfl, { s.payload with failed := some e }, ?_, rfl, by simp⟩
      simp [ChaosRunRecorder.abort, ChaosRunRecorder.finalize, hfin]
    | ok result =>
      cases hslo : assertSlo step result with
      | fail r e0 =>
        simp only [runSteps, hex, hslo] at h ⊢
        cases h
        refine ⟨[], step, rest, rfl, { s.payload with failed := some e }, ?_, rfl, by simp⟩
        simp [ChaosRunRecorder.abort, ChaosRunRecorder.finalize, hfin]
      | ok sloReport =>
        rcases hr : runSteps w dryRun rest
            (ChaosRunRecorder.append_step s step (statusOf result)
              (Dict.merge result sloReport)) with ⟨effs2, s2, r2⟩
        have hh := ih (ChaosRunRecorder.append_step s step (statusOf result)
          (Dict.merge result sloReport)) e
        rw [hr] at hh
        simp only [runSteps, hex, hslo, hr] at h ⊢
        obtain ⟨done, failStep, rest', hsplit, p, hp, hf, hmap⟩ :=
          hh h (by simpa [ChaosRunRecorder.append_step] using hfin)
        refine ⟨step :: done, failStep, rest', by rw [hsplit]; rfl, p, hp, hf, ?_⟩
        rw [hmap]
        simp [ChaosRunRecorder.append_step]

/-- C3: a run artifact is persisted after every `run` invocation; and
when any step raises (executor or SLO evaluator), the loop stops early,
the recorder is sealed via `abort` with the exception's description in
the `failed` field, the recorded steps are exactly the completed prefix
(strictly fewer than the scenario's steps), and the same exception is
re-raised to the caller. -/
theorem run_failure_seals_record (w : World) (sc : ChaosScenario) (dryRun : Bool)
    (note : Option String) (ts : String) :
    (ChaosRunner.run w sc dryRun note ts).2.1.persisted.isSome = true ∧
    (∀ e, (ChaosRunner.run w sc dryRun note ts).2.2 = Except.error e →
      ∃ p, (ChaosRunner.run w sc dryRun note ts).2.1.persisted = some p ∧
        p.failed = some e ∧
        p.steps.length < sc.steps.length ∧
        p.steps.map (fun en => (en.step_id, en.action)) =
          (sc.steps.take p.steps.length).map (fun st => (st.id, st.action))) := by
  rcases hr : runSteps w dryRun sc.steps
      (ChaosRunRecorder.init sc note dryRun ts) with ⟨effs, s, r⟩
  have herr := runSteps_error_shape w dryRun sc.steps
    (ChaosRunRecorder.init sc note dryRun ts)
  have hok := runSteps_ok_shape w dryRun sc.steps
    (ChaosRunRecorder.init sc note dryRun ts)
  rw [hr] at herr hok
  simp only [ChaosRunner.run]
  rw [hr]
  cases r with
  | ok u =>
    cases u
    constructor
    · obtain ⟨_, h2⟩ := hok rfl
      have hfin : s.finalized = false := by
        simpa [ChaosRunRecorder.init] using h2
      simp [ChaosRunRecorder.finalize, hfin]
    · intro e he
      simp at he
  | error e0 =>
    obtain ⟨done, failStep, rest', hsplit, p, hp, hf, hmap⟩ :=
      herr e0 rfl (by simp [ChaosRunRecorder.init])
    simp only at hp
    constructor
    · simp [hp]
    · intro e he
      have he0 : e0 = e := by injection he
      subst he0
      have hmap' : p.steps.map (fun en => (en.step_id, en.action)) =
          done.map (fun st => (st.id, st.action)) := by
        simpa [ChaosRunRecorder.init] using hmap
      have hlen : p.steps.length = done.length := by
        have hl := congrArg List.length hmap'
        simpa using hl
      refine ⟨p, hp, hf, ?_, ?_⟩
      · rw [hsplit, hlen]
        simp
      · rw [hlen, hsplit, List.take_left]
        exact hmap'

/-- Witness for C3: a run whose first step has an unsupported action
aborts with that error, seals the record with the failure text, and
records no step entries. -/
theorem run_failure_seals_record_witness :
    (ChaosRunner.run demoWorld demoFailScenario false none "T").2.1.persisted.isSome
        = true ∧
    ∃ p, (ChaosRunner.run demoWorld demoFailScenario false none "T").2.1.persisted =
        some p ∧
      p.failed = some "未知的步骤类型: boom" ∧
      p.steps.length < demoFailScenario.steps.length ∧
      p.steps.map (fun en => (en.step_id, en.action)) =
        (demoFailScenario.steps.take p.steps.length).map
          (fun st => (st.id, st.action)) :=
  ⟨(run_failure_seals_record demoWorld demoFailScenario false none "T").1,
   (run_failure_seals_record demoWorld demoFailScenario false none "T").2
     "未知的步骤类型: boom" rfl⟩

theorem detail_filter_eq (status : String) (rest : List (String × Json))
    (hrest : ∀ kv ∈ rest, kv.1 ≠ "status") :
    ((("status", Json.str status) :: rest).filter
      (fun kv => kv.1 != "status")) = rest := by
  rw [List.filter_cons]
  have hhead : ((("status", Json.str status) : String × Json).1 != "status") = false := by
    simp
  rw [hhead]
  simp only [Bool.false_eq_true, if_false]
  exact List.filter_eq_self.mpr (fun kv hkv => by
    simpa [bne_iff_ne] using hrest kv hkv)

theorem String.mk_data (s : String) : String.mk s.data = s := rfl

theorem stripLead_append (p r : List Char) : stripLead p (p ++ r) = some r := by
  induction p with
  | nil => rfl
  | cons c p ih => simp [stripLead, ih]

theorem stripLead_eq_some (sep : List Char) :
    ∀ (l r : List Char), stripLead sep l = some r → l = sep ++ r := by
  induction sep with
  | nil =>
    intro l r h
    simp [stripLead] at h
    simp [h]
  | cons c p ih =>
    intro l r h
    cases l with
    | nil => simp [stripLead] at h
    | cons d l2 =>
      simp only [stripLead] at h
      by_cases hcd : c = d
      · rw [if_pos hcd] at h
        have := ih l2 r h
        simp [hcd, this]
      · rw [if_neg hcd] at h
        cases h

theorem splitLinesAux_chunk :
    ∀ (x : List Char), '\n' ∉ x → ∀ (acc t : List Char),
      splitLinesAux (x ++ t) acc = splitLinesAux t (x.reverse ++ acc) := by
  intro x
  induction x with
  | nil => intro _ acc t; simp
  | cons c x ih =>
    intro hnl acc t
    have hc : c ≠ '\n' := fun h => hnl (h ▸ List.mem_cons_self c x)
    simp only [List.cons_append, splitLinesAux, List.append_eq]
    rw [if_neg hc, ih (fun h => hnl (List.mem_cons_of_mem c h)) (c :: acc) t]
    simp

theorem splitLines_line (a rest : List Char) (hnl : '\n' ∉ a) :
    splitLines (a ++ '\n' :: rest) = a :: splitLines rest := by
  unfold splitLines
  rw [splitLinesAux_chunk a hnl [] ('\n' :: rest)]
  simp [splitLinesAux]

theorem splitLines_cons_line (s : String) (t : List Char) (h : noNL s) :
    splitLines ((s ++ "\n").data ++ t) = s.data :: splitLines t := by
  have hd : (s ++ "\n").data ++ t = s.data ++ '\n' :: t := by
    rw [String.data_append]
    rw [show ("\n" : String).data = ['\n'] from rfl]
    simp
  rw [hd]
  exact splitLines_line s.data t h

theorem splitLines_sconcat_lines :
    ∀ (ls : List String), (∀ s ∈ ls, noNL s) → ∀ (t : List Char),
      splitLines ((sconcat (ls.map (fun s => s ++ "\n"))).data ++ t) =
        ls.map String.data ++ splitLines t := by
  intro ls
  induction ls with
  | nil => intro _ t; simp [sconcat]
  | cons x ls ih =>
    intro h t
    simp only [List.map_cons, sconcat]
    rw [String.data_append, List.append_assoc,
      splitLines_cons_line x _ (h x (by simp)),
      ih (fun s hs => h s (by simp [hs])) t]
    rfl

theorem stripLead_of_eq_append (sep l r : List Char) (h : l = sep ++ r) :
    stripLead sep l = some r := by
  rw [h]; exact stripLead_append sep r

theorem take_append_of_le (u v : List α) (n : Nat) (h : n ≤ u.length) :
    (u ++ v).take n = u.take n := by
  rw [List.take_append_eq_append_take, Nat.sub_eq_zero_of_le h]
  simp

theorem splitFirst_clean (sep : List Char) (hsep : sep ≠ []) :
    ∀ (a b : List Char), SepClean sep a →
      splitFirst sep (a ++ (sep ++ b)) = some (a, b) := by
  intro a
  induction a with
  | nil =>
    intro b hclean
    cases hs : sep with
    | nil => exact absurd hs hsep
    | cons s0 sep2 =>
      subst hs
      simp only [List.nil_append, List.cons_append, splitFirst, List.append_eq]
      rw [show stripLead (s0 :: sep2) (s0 :: (sep2 ++ b)) = some b from
        stripLead_append (s0 :: sep2) b]
  | cons c a ih =>
    intro b hclean
    have hL : 1 ≤ sep.length := by
      cases sep with
      | nil => exact absurd rfl hsep
      | cons _ _ => simp
    have hclean2 : SepClean sep a := by
      unfold SepClean at hclean ⊢
      simp only [List.cons_append, hasSub, Bool.or_eq_false_iff] at hclean
      exact hclean.2
    have hhead : (stripLead sep (c :: (a ++ sep.dropLast))).isSome = false := by
      unfold SepClean at hclean
      simp only [List.cons_append, hasSub, Bool.or_eq_false_iff] at hclean
      exact hclean.1
    have hnone : stripLead sep (c :: (a ++ (sep ++ b))) = none := by
      cases hstrip : stripLead sep (c :: (a ++ (sep ++ b))) with
      | none => rfl
      | some r =>
        exfalso
        have heq := stripLead_eq_some sep _ _ hstrip
        have hlast : sep.dropLast ++ [sep.getLast hsep] = sep :=
          List.dropLast_append_getLast hsep
        have hw : (c :: (a ++ sep.dropLast)) ++ ([sep.getLast hsep] ++ b) =
            c :: (a ++ (sep ++ b)) := by
          simp only [List.cons_append, List.append_assoc, List.nil_append]
          rw [show sep.dropLast ++ sep.getLast hsep :: b = sep ++ b from by
            calc sep.dropLast ++ sep.getLast hsep :: b
                = (sep.dropLast ++ [sep.getLast hsep]) ++ b := by simp
              _ = sep ++ b := by rw [hlast]]
        have hlen : sep.length ≤ (c :: (a ++ sep.dropLast)).length := by
          simp [List.length_dropLast]
          omega
        have htake : (c :: (a ++ sep.dropLast)).take sep.length = sep := by
          have h1 : (c :: (a ++ (sep ++ b))).take sep.length = sep := by
            rw [heq]
            exact List.take_left sep r
          rw [← hw, take_append_of_le _ _ _ hlen] at h1
          exact h1
        have hsplit2 : c :: (a ++ sep.dropLast) =
            sep ++ (c :: (a ++ sep.dropLast)).drop sep.length := by
          conv_lhs => rw [← List.take_append_drop sep.length
            (c :: (a ++ sep.dropLast)), htake]
        rw [stripLead_of_eq_append sep _ _ hsplit2] at hhead
        simp at hhead
    simp only [List.cons_append, splitFirst, List.append_eq]
    rw [hnone, ih b hclean2]
    rfl

theorem parseBool_pyBool (d : Bool) : parseBool (pyBool d).data = some d := by
  cases d <;> rfl

theorem parseNoteChars_renderNote (o : Option String) (h : renderableOpt o) :
    parseNoteChars (renderNote o).data = o := by
  cases o with
  | none => rfl
  | some s =>
    obtain ⟨h1, h2⟩ := h s rfl
    have hr : renderNote (some s) = s := by simp [renderNote, h1]
    rw [hr]
    unfold parseNoteChars
    rw [if_neg (fun hd => h2 (String.ext hd))]

theorem sconcat_append (xs ys : List String) :
    sconcat (xs ++ ys) = sconcat xs ++ sconcat ys := by
  induction xs with
  | nil => simp [sconcat]
  | cons x xs ih => simp [sconcat, ih, String.append_assoc]

theorem sconcat_entries (es : List StepEntry) :
    sconcat (es.map renderStepText) =
      sconcat (((es.map entryLineStrs).flatten).map (fun s => s ++ "\n")) := by
  induction es with
  | nil => rfl
  | cons e es ih =>
    conv_rhs => rw [List.map_cons, List.flatten_cons, List.map_append, sconcat_append]
    show renderStepText e ++ sconcat (es.map renderStepText) = _
    rw [renderStepText, ih]

theorem render_lines (p : Payload) :
    render p = sconcat ((headerLineStrs p ++ (p.steps.map entryLineStrs).flatten).map
      (fun s => s ++ "\n")) := by
  unfold render
  rw [List.map_append, sconcat_append, sconcat_entries]

theorem splitLines_render (p : Payload)
    (h : ∀ s ∈ headerLineStrs p ++ (p.steps.map entryLineStrs).flatten, noNL s) :
    splitLines (render p).data =
      (headerLineStrs p ++ (p.steps.map entryLineStrs).flatten).map String.data
        ++ [[]] := by
  rw [render_lines]
  have h2 := splitLines_sconcat_lines _ h []
  rw [List.append_nil] at h2
  rw [h2]
  rfl

theorem noNL_append (s t : String) (hs : noNL s) (ht : noNL t) : noNL (s ++ t) := by
  intro hmem
  rw [String.data_append, List.mem_append] at hmem
  cases hmem with
  | inl h => exact hs h
  | inr h => exact ht h

theorem renderNote_noNL (o : Option String) (h : noNLopt o) : noNL (renderNote o) := by
  cases o with
  | none => exact (by decide : noNL "无")
  | some s =>
    by_cases hs : s = ""
    · rw [renderNote, if_pos hs]
      exact (by decide : noNL "无")
    · rw [renderNote, if_neg hs]
      exact h

theorem pyBool_noNL (d : Bool) : noNL (pyBool d) := by
  cases d <;> decide

theorem render_lines_noNL (p : Payload) (h : RenderFaithful p) :
    ∀ s ∈ headerLineStrs p ++ (p.steps.map entryLineStrs).flatten, noNL s := by
  obtain ⟨h1, h2, h3, h4, h5, h6, h7, h8, h9⟩ := h
  intro s hs
  rw [List.mem_append] at hs
  cases hs with
  | inl hh =>
    simp only [headerLineStrs, List.mem_cons, List.not_mem_nil, or_false] at hh
    rcases hh with rfl | rfl | rfl | rfl | rfl | rfl
    · exact noNL_append _ _ (noNL_append _ _ (noNL_append _ _ (by decide) h1)
        (by decide)) h2
    · exact noNL_append _ _ (by decide) h3
    · exact noNL_append _ _ (by decide) (pyBool_noNL p.dry_run)
    · exact noNL_append _ _ (by decide) (renderNote_noNL p.note h4)
    · exact noNL_append _ _ (by decide) (renderNote_noNL p.failed h5)
    · decide
  | inr hflat =>
    obtain ⟨lns, hlns, hsin⟩ := List.mem_flatten.mp hflat
    obtain ⟨e, he, rfl⟩ := List.mem_map.mp hlns
    obtain ⟨f1, f2, f3, f4, f5, f6, f7⟩ := h9 e he
    simp only [entryLineStrs, List.mem_cons] at hsin
    cases hsin with
    | inl heq =>
      subst heq
      exact noNL_append _ _ (noNL_append _ _ (noNL_append _ _ (noNL_append _ _
        (noNL_append _ _ (by decide) f1) (by decide)) f2) (by decide)) f3
    | inr hdet =>
      obtain ⟨kv, hkv, rfl⟩ := List.mem_map.mp hdet
      obtain ⟨k1, k2, _⟩ := f7 kv (List.mem_of_mem_filter hkv)
      exact noNL_append _ _ (noNL_append _ _ (noNL_append _ _ (by decide) k1)
        (by decide)) k2

theorem parseStepLines_details :
    ∀ (ds : List (String × Json)) (lines : List (List Char))
      (i a st : String) (acc : List (String × Json)),
      (∀ kv ∈ ds, SepClean ": ".data kv.1.data) →
      parseStepLines
          ((ds.map (fun kv => ("    · " ++ kv.1 ++ ": " ++ pyStr kv.2).data)) ++ lines)
          (some (i, a, st, acc)) =
        parseStepLines lines (some (i, a, st, (ds.map textifyVal).reverse ++ acc)) := by
  intro ds
  induction ds with
  | nil => intro lines i a st acc _; simp
  | cons kv ds ih =>
    intro lines i a st acc h
    have hdata : ("    · " ++ kv.1 ++ ": " ++ pyStr kv.2).data =
        "    · ".data ++ (kv.1.data ++ (": ".data ++ (pyStr kv.2).data)) := by
      simp [String.data_append]
    have hne : ("    · " ++ kv.1 ++ ": " ++ pyStr kv.2).data ≠ [] := by
      rw [hdata, show "    · ".data = [' ', ' ', ' ', ' ', '·', ' '] from rfl]
      simp
    have hstep : stripLead "- ".data
        (("    · " ++ kv.1 ++ ": " ++ pyStr kv.2).data) = none := by
      rw [hdata]; rfl
    have hdet : stripLead "    · ".data
        (("    · " ++ kv.1 ++ ": " ++ pyStr kv.2).data) =
        some (kv.1.data ++ (": ".data ++ (pyStr kv.2).data)) := by
      rw [hdata]; exact stripLead_append _ _
    have hsplitv : splitFirst ": ".data
        (kv.1.data ++ (": ".data ++ (pyStr kv.2).data)) =
        some (kv.1.data, (pyStr kv.2).data) :=
      splitFirst_clean ": ".data (by decide) kv.1.data (pyStr kv.2).data
        (h kv (by simp))
    simp only [List.map_cons, List.cons_append, parseStepLines, List.append_eq]
    rw [if_neg hne]
    simp only [hstep, hdet, hsplitv, String.mk_data]
    rw [ih lines i a st ((kv.1, Json.str (pyStr kv.2)) :: acc)
      (fun kv2 hkv2 => h kv2 (by simp [hkv2]))]
    simp [textifyVal, List.append_assoc]

theorem parseStepLines_entries :
    ∀ (es : List StepEntry) (cur : String × String × String × List (String × Json)),
      (∀ e ∈ es, entryFaithful e) →
      parseStepLines (((es.map entryLineStrs).flatten).map String.data ++ [[]])
          (some cur) =
        some (closeEntry cur :: es.map textifyEntry) := by
  intro es
  induction es with
  | nil => intro cur _; simp [parseStepLines]
  | cons e es ih =>
    intro cur hok
    obtain ⟨f1, f2, f3, f4, f5, f6, f7⟩ := hok e (by simp)
    obtain ⟨rest0, hdetail0, hrest0⟩ := f6
    have hfilter : e.detail.filter (fun kv => kv.1 != "status") = rest0 := by
      rw [hdetail0]; exact detail_filter_eq e.status rest0 hrest0
    have hstepdata : ("- " ++ e.step_id ++ " (" ++ e.action ++ "): " ++ e.status).data =
        "- ".data ++ (e.step_id.data ++ (" (".data ++ (e.action.data ++
          ("): ".data ++ e.status.data)))) := by
      simp [String.data_append]
    have hne : ("- " ++ e.step_id ++ " (" ++ e.action ++ "): " ++ e.status).data ≠ [] := by
      rw [hstepdata, show "- ".data = ['-', ' '] from rfl]
      simp
    have hlead : stripLead "- ".data
        (("- " ++ e.step_id ++ " (" ++ e.action ++ "): " ++ e.status).data) =
        some (e.step_id.data ++ (" (".data ++ (e.action.data ++
          ("): ".data ++ e.status.data)))) := by
      rw [hstepdata]; exact stripLead_append _ _
    have hsplit1 : splitFirst " (".data (e.step_id.data ++ (" (".data ++
        (e.action.data ++ ("): ".data ++ e.status.data)))) =
        some (e.step_id.data, e.action.data ++ ("): ".data ++ e.status.data)) :=
      splitFirst_clean " (".data (by decide) e.step_id.data _ f4
    have hsplit2 : splitFirst "): ".data (e.action.data ++
        ("): ".data ++ e.status.data)) = some (e.action.data, e.status.data) :=
      splitFirst_clean "): ".data (by decide) e.action.data e.status.data f5
    have hce : closeEntry (e.step_id, e.action, e.status,
        (rest0.map textifyVal).reverse ++ []) = textifyEntry e := by
      simp [closeEntry, textifyEntry, hdetail0, textifyVal, pyStr]
    simp only [List.map_cons, List.flatten_cons, List.map_append, entryLineStrs,
      List.map_map, Function.comp_def, List.cons_append, parseStepLines, List.append_eq]
    rw [if_neg hne]
    simp only [hlead, hsplit1, hsplit2, String.mk_data, hfilter, List.append_assoc]
    rw [parseStepLines_details rest0 _ e.step_id e.action e.status []
      (fun kv hkv => (f7 kv (by rw [hdetail0]; exact List.mem_cons_of_mem _ hkv)).2.2)]
    rw [ih (e.step_id, e.action, e.status, (rest0.map textifyVal).reverse ++ [])
      (fun e2 h2 => hok e2 (by simp [h2]))]
    rw [hce]
    rfl

theorem parseStepLines_entries_top (es : List StepEntry)
    (hok : ∀ e ∈ es, entryFaithful e) :
    parseStepLines (((es.map entryLineStrs).flatten).map String.data ++ [[]]) none =
      some (es.map textifyEntry) := by
  cases es with
  | nil => simp [parseStepLines]
  | cons e es =>
    obtain ⟨f1, f2, f3, f4, f5, f6, f7⟩ := hok e (by simp)
    obtain ⟨rest0, hdetail0, hrest0⟩ := f6
    have hfilter : e.detail.filter (fun kv => kv.1 != "status") = rest0 := by
      rw [hdetail0]; exact detail_filter_eq e.status rest0 hrest0
    have hstepdata : ("- " ++ e.step_id ++ " (" ++ e.action ++ "): " ++ e.status).data =
        "- ".data ++ (e.step_id.data ++ (" (".data ++ (e.action.data ++
          ("): ".data ++ e.status.data)))) := by
      simp [String.data_append]
    have hne : ("- " ++ e.step_id ++ " (" ++ e.action ++ "): " ++ e.status).data ≠ [] := by
      rw [hstepdata, show "- ".data = ['-', ' '] from rfl]
      simp
    have hlead : stripLead "- ".data
        (("- " ++ e.step_id ++ " (" ++ e.action ++ "): " ++ e.status).data) =
        some (e.step_id.data ++ (" (".data ++ (e.action.data ++
          ("): ".data ++ e.status.data)))) := by
      rw [hstepdata]; exact stripLead_append _ _
    have hsplit1 : splitFirst " (".data (e.step_id.data ++ (" (".data ++
        (e.action.data ++ ("): ".data ++ e.status.data)))) =
        some (e.step_id.data, e.action.data ++ ("): ".data ++ e.status.data)) :=
      splitFirst_clean " (".data (by decide) e.step_id.data _ f4
    have hsplit2 : splitFirst "): ".data (e.action.data ++
        ("): ".data ++ e.status.data)) = some (e.action.data, e.status.data) :=
      splitFirst_clean "): ".data (by decide) e.action.data e.status.data f5
    have hce : closeEntry (e.step_id, e.action, e.status,
        (rest0.map textifyVal).reverse ++ []) = textifyEntry e := by
      simp [closeEntry, textifyEntry, hdetail0, textifyVal, pyStr]
    simp only [List.map_cons, List.flatten_cons, List.map_append, entryLineStrs,
      List.map_map, Function.comp_def, List.cons_append, parseStepLines, List.append_eq]
    rw [if_neg hne]
    simp only [hlead, hsplit1, hsplit2, String.mk_data, hfilter, List.append_assoc]
    rw [parseStepLines_details rest0 _ e.step_id e.action e.status []
      (fun kv hkv => (f7 kv (by rw [hdetail0]; exact List.mem_cons_of_mem _ hkv)).2.2)]
    rw [parseStepLines_entries es (e.step_id, e.action, e.status,
      (rest0.map textifyVal).reverse ++ []) (fun e2 h2 => hok e2 (by simp [h2]))]
    rw [hce]

theorem map_textifyVal_eq_self : ∀ ds : List (String × Json),
    (∀ kv ∈ ds, ∃ s, kv.2 = Json.str s) → ds.map textifyVal = ds := by
  intro ds
  induction ds with
  | nil => intro _; rfl
  | cons kv ds ih =>
    intro h
    obtain ⟨k, v⟩ := kv
    obtain ⟨s, hs⟩ := h (k, v) (by simp)
    simp only at hs
    subst hs
    rw [List.map_cons, ih (fun kv2 h2 => h kv2 (by simp [h2]))]
    rfl

theorem map_textifyEntry_eq_self : ∀ es : List StepEntry,
    (∀ e ∈ es, ∀ kv ∈ e.detail, ∃ s, kv.2 = Json.str s) →
      es.map textifyEntry = es := by
  intro es
  induction es with
  | nil => intro _; rfl
  | cons e es ih =>
    intro h
    have hentry : textifyEntry e = e := by
      unfold textifyEntry
      rw [map_textifyVal_eq_self e.detail (h e (by simp))]
    rw [List.map_cons, hentry, ih (fun e2 h2 => h e2 (by simp [h2]))]

theorem textify_eq_self (p : Payload)
    (h : ∀ e ∈ p.steps, ∀ kv ∈ e.detail, ∃ s, kv.2 = Json.str s) :
    textify p = p := by
  unfold textify
  rw [map_textifyEntry_eq_self p.steps h]

/-- C8 amended: on the faithful domain, parsing the printed replay
output recovers the payload up to the `str()` coercion of detail values,
and exactly when all detail values are strings. -/
theorem replay_roundtrip_amended (p : Payload) (h : RenderFaithful p) :
    parseRenderText (render p) = some (textify p) ∧
    ((∀ e ∈ p.steps, ∀ kv ∈ e.detail, ∃ s, kv.2 = Json.str s) →
      parseRenderText (render p) = some p) := by
  have hsplit := splitLines_render p (render_lines_noNL p h)
  obtain ⟨h1, h2, h3, h4, h5, h6, h7, h8, h9⟩ := h
  have hmain : parseRenderText (render p) = some (textify p) := by
    unfold parseRenderText
    rw [hsplit]
    simp only [headerLineStrs, List.map_cons, List.map_append, List.cons_append,
      List.nil_append]
    have hl1 : stripLead "场景: ".data
        (("场景: " ++ p.scenario_id ++ " - " ++ p.scenario_title).data) =
        some (p.scenario_id.data ++ (" - ".data ++ p.scenario_title.data)) := by
      rw [show ("场景: " ++ p.scenario_id ++ " - " ++ p.scenario_title).data =
        "场景: ".data ++ (p.scenario_id.data ++ (" - ".data ++ p.scenario_title.data))
        from by simp [String.data_append]]
      exact stripLead_append _ _
    have hsplitid : splitFirst " - ".data
        (p.scenario_id.data ++ (" - ".data ++ p.scenario_title.data)) =
        some (p.scenario_id.data, p.scenario_title.data) :=
      splitFirst_clean " - ".data (by decide) _ _ h8
    have hl2 : stripLead "启动时间: ".data (("启动时间: " ++ p.started_at).data) =
        some p.started_at.data := by
      rw [String.data_append]; exact stripLead_append _ _
    have hl3 : stripLead "Dry-run: ".data (("Dry-run: " ++ pyBool p.dry_run).data) =
        some (pyBool p.dry_run).data := by
      rw [String.data_append]; exact stripLead_append _ _
    have hl4 : stripLead "备注: ".data (("备注: " ++ renderNote p.note).data) =
        some (renderNote p.note).data := by
      rw [String.data_append]; exact stripLead_append _ _
    have hl5 : stripLead "失败原因: ".data
        (("失败原因: " ++ renderNote p.failed).data) =
        some (renderNote p.failed).data := by
      rw [String.data_append]; exact stripLead_append _ _
    simp only [hl1, hsplitid, hl2, hl3, parseBool_pyBool, hl4, hl5, if_true]
    rw [parseStepLines_entries_top p.steps h9]
    simp only [String.mk_data, parseNoteChars_renderNote p.note h6,
      parseNoteChars_renderNote p.failed h7]
    rfl
  exact ⟨hmain, fun hall => by rw [hmain, textify_eq_self p hall]⟩

/-- C8 counterexample: two pairs of sealed run artifacts that differ in a
stored field yet print identical replay text — a run with no note versus
a run whose note is the literal placeholder text, and a run with no
observation (a stored null) versus a run whose observation is the
literal string None. Load-then-render does not reproduce every stored
field. -/
theorem replay_roundtrip_counterexample :
    (ChaosRunner.run demoWorld demoTinyScenario true none "T").2.1.persisted =
      some { scenario_id := "demo", scenario_title := "Tiny", started_at := "T",
             note := none, dry_run := true,
             steps := [{ step_id := "s1", action := "shell", status := "skipped",
                         detail := [("status", Json.str "skipped"),
                                    ("observation", Json.null),
                                    ("command", Json.str "echo"),
                                    ("output", Json.str "dry-run 未执行")] }],
             failed := none } ∧
    (ChaosRunner.run demoWorld demoTinyScenario true (some "无") "T").2.1.persisted =
      some { scenario_id := "demo", scenario_title := "Tiny", started_at := "T",
             note := some "无", dry_run := true,
             steps := [{ step_id := "s1", action := "shell", status := "skipped",
                         detail := [("status", Json.str "skipped"),
                                    ("observation", Json.null),
                                    ("command", Json.str "echo"),
                                    ("output", Json.str "dry-run 未执行")] }],
             failed := none } ∧
    (none : Option String) ≠ some "无" ∧
    render { scenario_id := "demo", scenario_title := "Tiny", started_at := "T",
             note := none, dry_run := true,
             steps := [{ step_id := "s1", action := "shell", status := "skipped",
                         detail := [("status", Json.str "skipped"),
                                    ("observation", Json.null),
                                    ("command", Json.str "echo"),
                                    ("output", Json.str "dry-run 未执行")] }],
             failed := none } =
      render { scenario_id := "demo", scenario_title := "Tiny", started_at := "T",
               note := some "无", dry_run := true,
               steps := [{ step_id := "s1", action := "shell", status := "skipped",
                           detail := [("status", Json.str "skipped"),
                                      ("observation", Json.null),
                                      ("command", Json.str "echo"),
                                      ("output", Json.str "dry-run 未执行")] }],
               failed := none } ∧
    (ChaosRunner.run demoWorld demoTinyScenarioObs true none "T").2.1.persisted =
      some { scenario_id := "demo", scenario_title := "Tiny", started_at := "T",
             note := none, dry_run := true,
             steps := [{ step_id := "s1", action := "shell", status := "skipped",
                         detail := [("status", Json.str "skipped"),
                                    ("observation", Json.str "None"),
                                    ("command", Json.str "echo"),
                                    ("output", Json.str "dry-run 未执行")] }],
             failed := none } ∧
    ({ scenario_id := "demo", scenario_title := "Tiny", started_at := "T",
       note := none, dry_run := true,
       steps := [{ step_id := "s1", action := "shell", status := "skipped",
                   detail := [("status", Json.str "skipped"),
                              ("observation", Json.null),
                              ("command", Json.str "echo"),
                              ("output", Json.str "dry-run 未执行")] }],
       failed := none } : Payload) ≠
      { scenario_id := "demo", scenario_title := "Tiny", started_at := "T",
        note := none, dry_run := true,
        steps := [{ step_id := "s1", action := "shell", status := "skipped",
                    detail := [("status", Json.str "skipped"),
                               ("observation", Json.str "None"),
                               ("command", Json.str "echo"),
                               ("output", Json.str "dry-run 未执行")] }],
        failed := none } ∧
    render { scenario_id := "demo", scenario_title := "Tiny", started_at := "T",
             note := none, dry_run := true,
             steps := [{ step_id := "s1", action := "shell", status := "skipped",
                         detail := [("status", Json.str "skipped"),
                                    ("observation", Json.null),
                                    ("command", Json.str "echo"),
                                    ("output", Json.str "dry-run 未执行")] }],
             failed := none } =
      render { scenario_id := "demo", scenario_title := "Tiny", started_at := "T",
               note := none, dry_run := true,
               steps := [{ step_id := "s1", action := "shell", status := "skipped",
                           detail := [("status", Json.str "skipped"),
                                      ("observation", Json.str "None"),
                                      ("command", Json.str "echo"),
                                      ("output", Json.str "dry-run 未执行")] }],
               failed := none } :=
  ⟨rfl, rfl, by decide, rfl, rfl, by intro hEq; simp at hEq, rfl⟩

/-- Witness for C8 amended at a concrete sealed payload with all-string
detail values: the printed replay parses back to it exactly. -/
theorem replay_roundtrip_amended_witness :
    RenderFaithful demoPayload ∧
    parseRenderText (render demoPayload) = some (textify demoPayload) ∧
    parseRenderText (render demoPayload) = some demoPayload := by
  have hwf : RenderFaithful demoPayload := by
    refine ⟨by decide, by decide, by decide, (by decide : noNL "oncall"), trivial,
      ?_, ?_, by decide, ?_⟩
    · intro s hs
      cases hs
      exact ⟨by decide, by decide⟩
    · intro s hs
      cases hs
    · intro e he
      simp only [demoPayload, List.mem_singleton] at he
      subst he
      refine ⟨by decide, by decide, by decide, by decide, by decide,
        ⟨[("observation", Json.str "ok"), ("command", Json.str "echo"),
          ("output", Json.str "dry-run 未执行")], rfl, by simp⟩, ?_⟩
      intro kv hkv
      simp only [List.mem_cons, List.not_mem_nil, or_false] at hkv
      rcases hkv with rfl | rfl | rfl | rfl <;>
        exact ⟨by decide, by decide, by decide⟩
  have hthm := replay_roundtrip_amended demoPayload hwf
  refine ⟨hwf, hthm.1, hthm.2 ?_⟩
  intro e he kv hkv
  simp only [demoPayload, List.mem_singleton] at he
  subst he
  simp only [List.mem_cons, List.not_mem_nil, or_false] at hkv
  rcases hkv with rfl | rfl | rfl | rfl
  · exact ⟨"skipped", rfl⟩
  · exact ⟨"ok", rfl⟩
  · exact ⟨"echo", rfl⟩
  · exact ⟨"dry-run 未执行", rfl⟩
